import Mathlib

set_option maxRecDepth 10000
set_option maxHeartbeats 1000000

/-!
Verification of the vgarduino VGA signal generator.

The repository holds two variants of the same Arduino sketch:

* `V1` embeds `vgarduino.ino` (v1.1): a countdown state machine
  (`phase`, `lines_left`), a cycle-exact inline-assembly `waitTimer1`,
  and an interrupt handler that paints 8 color bands separated by fixed
  3 microsecond delays.
* `V0` embeds `src/unnamed/part_000` (v1.0): a count-up state machine
  (`phase`, `line_number`), a polling `waitTimer1(byte tick)`, and an
  interrupt handler that places each color band with `waitTimer1`.

Machine integers are modelled as `Nat`/`Int` with explicit `% 256`
wherever the 8-bit width of AVR registers matters.
-/

/-- Conversion of a C `int` expression to an AVR `byte` (8 bits). -/
def byteOf (n : Nat) : Nat := n % 256

/-- avr-libc macro `_BV(x) = (1 << x)`. -/
def BV (n : Nat) : Nat := 1 <<< n

namespace V1

/-- `#define SYNCH_PULSE 0` (vgarduino.ino). -/
def SYNCH_PULSE : Nat := 0

/-- `#define BACK_PORCH 1` (vgarduino.ino). -/
def BACK_PORCH : Nat := 1

/-- `#define ACTIVE_VIDEO 2` (vgarduino.ino). -/
def ACTIVE_VIDEO : Nat := 2

/-- `#define FRONT_PORCH 3` (vgarduino.ino). -/
def FRONT_PORCH : Nat := 3

/-- `#define V_SYNCH_PULSE_LINES 2`. -/
def V_SYNCH_PULSE_LINES : Int := 2

/-- `#define V_BACK_PORCH_LINES 31`. -/
def V_BACK_PORCH_LINES : Int := 31

/-- `#define V_ACTIVE_VIDEO_LINES 480`. -/
def V_ACTIVE_VIDEO_LINES : Int := 480

/-- `#define V_FRONT_PORCH_LINES 11`. -/
def V_FRONT_PORCH_LINES : Int := 11

/-- `int nb_line_modes[] = {V_SYNCH_PULSE_LINES, V_BACK_PORCH_LINES,
V_ACTIVE_VIDEO_LINES, V_FRONT_PORCH_LINES};` indexed by the phase
constants above. -/
def nb_line_modes : List Int :=
  [V_SYNCH_PULSE_LINES, V_BACK_PORCH_LINES, V_ACTIVE_VIDEO_LINES, V_FRONT_PORCH_LINES]

/-- `#define H_SYNCH_PULSE_TICKS 61`. -/
def H_SYNCH_PULSE_TICKS : Nat := 61

/-- `#define H_BACK_PORCH_TICKS 30`. -/
def H_BACK_PORCH_TICKS : Nat := 30

/-- `#define H_ACTIVE_VIDEO_TICKS 406`. -/
def H_ACTIVE_VIDEO_TICKS : Nat := 406

/-- `#define H_FRONT_PORCH_TICKS 10`. -/
def H_FRONT_PORCH_TICKS : Nat := 10

/-- `#define H_FULL_LINE_NB_TICKS` = 61+30+406+10 = 507 (the TIMER1 top). -/
def H_FULL_LINE_NB_TICKS : Nat :=
  H_SYNCH_PULSE_TICKS + H_BACK_PORCH_TICKS + H_ACTIVE_VIDEO_TICKS + H_FRONT_PORCH_TICKS

/-- The two persistent state variables `byte phase; int lines_left;`. -/
structure State where
  phase : Nat
  lines_left : Int
deriving DecidableEq

/-- `incrementLineNumber` of vgarduino.ino:
`lines_left--; if (lines_left == 0) { phase++; phase &= 0x03;
lines_left = nb_line_modes[phase]; }`. -/
def incrementLineNumber (s : State) : State :=
  let ll := s.lines_left - 1
  if ll = 0 then
    let p := (s.phase + 1) &&& 0x03
    ⟨p, nb_line_modes.getD p 0⟩
  else
    ⟨s.phase, ll⟩

/-- `incrementLineNumber` with the array access made explicit: the
`nb_line_modes[phase]` read is a checked lookup that fails (returns
`none`) if the index is out of the bounds of the 4-element array. -/
def incrementLineNumberChecked (s : State) : Option State :=
  let ll := s.lines_left - 1
  if ll = 0 then
    let p := (s.phase + 1) &&& 0x03
    match nb_line_modes.get? p with
    | some v => some ⟨p, v⟩
    | none => none
  else
    some ⟨s.phase, ll⟩

/-- Initial state set by `init_video_line_timer`:
`phase = FRONT_PORCH; lines_left = nb_line_modes[phase];`. -/
def initState : State := ⟨FRONT_PORCH, nb_line_modes.getD FRONT_PORCH 0⟩

/-- State after `n` interrupt events (each applies `incrementLineNumber`
exactly once) starting from the initialized state. -/
def stateAt (n : Nat) : State := incrementLineNumber^[n] initState

/-- Phase seen by the `n`-th interrupt event. -/
def phaseAt (n : Nat) : Nat := (stateAt n).phase

/-- Successor of a phase in the cyclic order implemented by
`phase++; phase &= 0x03`. -/
def nextPhase (p : Nat) : Nat := (p + 1) &&& 0x03

/-- The `n`-th advance call is an entry into the SyncPulse phase. -/
def entersSyncPulse (n : Nat) : Prop :=
  phaseAt (n + 1) = SYNCH_PULSE ∧ phaseAt n ≠ SYNCH_PULSE

/-- Closed-form description of `stateAt` over one 524-line field,
proven equal to `stateAt` below (`closedForm_correct`). -/
def closedForm (r : Nat) : State :=
  if r < 11 then ⟨FRONT_PORCH, 11 - (r : Int)⟩
  else if r < 13 then ⟨SYNCH_PULSE, 13 - (r : Int)⟩
  else if r < 44 then ⟨BACK_PORCH, 44 - (r : Int)⟩
  else ⟨ACTIVE_VIDEO, 524 - (r : Int)⟩

/-- Counter invariant from the spec: the remaining-line counter is
positive and bounded by the current phase's line allotment. -/
def counterInv (s : State) : Prop :=
  s.phase < 4 ∧ 0 < s.lines_left ∧ s.lines_left ≤ nb_line_modes.getD s.phase 0

/-- `#define RED_MASK _BV(RED_PIN)` with `RED_PIN 7`. -/
def RED_MASK : Nat := BV 7

/-- `#define GREEN_MASK _BV(GREEN_PIN)` with `GREEN_PIN 6`. -/
def GREEN_MASK : Nat := BV 6

/-- `#define BLUE_MASK _BV(BLUE_PIN)` with `BLUE_PIN 5`. -/
def BLUE_MASK : Nat := BV 5

/-- `#define CYAN_MASK (_BV(GREEN_PIN)|_BV(BLUE_PIN))`. -/
def CYAN_MASK : Nat := BV 6 ||| BV 5

/-- `#define YELLOW_MASK (_BV(RED_PIN)|_BV(GREEN_PIN))`. -/
def YELLOW_MASK : Nat := BV 7 ||| BV 6

/-- `#define MAGENTA_MASK (_BV(RED_PIN)|_BV(BLUE_PIN))`. -/
def MAGENTA_MASK : Nat := BV 7 ||| BV 5

/-- `#define WHITE_MASK (_BV(RED_PIN)|_BV(GREEN_PIN)|_BV(BLUE_PIN))`. -/
def WHITE_MASK : Nat := BV 7 ||| BV 6 ||| BV 5

/-- `#define BLACK_MASK 0`. -/
def BLACK_MASK : Nat := 0

/-- `#define HSYNCH_PIN 1` (vgarduino.ino, port B). -/
def HSYNCH_PIN : Nat := 1

/-- `#define VSYNCH_PIN 0` (vgarduino.ino, port B). -/
def VSYNCH_PIN : Nat := 0

/-- Observable actions performed by the v1.1 interrupt handler
`ISR(TIMER1_CAPT_vect)`, in program order. -/
inductive Ev where
  | waitT (tick : Nat)
  | portD (v : Nat)
  | delayUs (us : Nat)
  | portBXor (mask : Nat)
deriving DecidableEq

/-- `PORT(RGB_PORT) = v` argument of an event, if it is such a write. -/
def Ev.rgbArg : Ev → Option Nat
  | .portD v => some v
  | _ => none

/-- `waitTimer1` argument of an event, if it is such a call. -/
def Ev.waitArg : Ev → Option Nat
  | .waitT t => some t
  | _ => none

/-- Whether an event mutates the sync output port (port B). -/
def Ev.isSyncWrite : Ev → Bool
  | .portBXor _ => true
  | _ => false

/-- Event trace of one invocation of the v1.1 `ISR(TIMER1_CAPT_vect)`
body before its final `incrementLineNumber()` call, as a function of
the state it observes. -/
def isrEvents (s : State) : List Ev :=
  if s.phase = ACTIVE_VIDEO then
    [.waitT (H_SYNCH_PULSE_TICKS + H_BACK_PORCH_TICKS),
     .portD RED_MASK, .delayUs 3,
     .portD GREEN_MASK, .delayUs 3,
     .portD BLUE_MASK, .delayUs 3,
     .portD CYAN_MASK, .delayUs 3,
     .portD YELLOW_MASK, .delayUs 3,
     .portD MAGENTA_MASK, .delayUs 3,
     .portD BLACK_MASK, .delayUs 3,
     .portD WHITE_MASK, .delayUs 3,
     .portD 0]
  else if s.phase = FRONT_PORCH ∨ s.phase = SYNCH_PULSE then
    if s.lines_left = 1 then
      [.waitT (H_SYNCH_PULSE_TICKS + H_BACK_PORCH_TICKS), .portBXor (BV VSYNCH_PIN)]
    else []
  else []

/-- The event trace of one ActiveVideo invocation (it does not depend on
the line counter, see `C4_bands`). -/
def activeLineEvents : List Ev := isrEvents ⟨ACTIVE_VIDEO, 0⟩

/-- The fixed 8-band color write sequence of the v1.1 handler. -/
def bandMasks : List Nat :=
  [RED_MASK, GREEN_MASK, BLUE_MASK, CYAN_MASK, YELLOW_MASK, MAGENTA_MASK,
   BLACK_MASK, WHITE_MASK]

/-- An interrupt event emits the 8-band color sequence: its RGB-port
writes are exactly the 8 band masks followed by the final blank write. -/
def emitsBandSequence (s : State) : Bool :=
  (isrEvents s).filterMap Ev.rgbArg == bandMasks ++ [0]

/-- Effect of one handler event on the sync output port (port B). -/
def applyEv (b : Nat) (e : Ev) : Nat :=
  match e with
  | .portBXor m => b ^^^ m
  | _ => b

/-- The delta `sub %[tick], %[tmp]` computes: 8-bit subtraction of the
current `TCNT1L` reading from the requested target tick. -/
def waitDelta (tick tcnt1l : Nat) : Nat :=
  (tick % 256 + 256 - tcnt1l % 256) % 256

/-- `sub %[tick], 13`: 8-bit subtraction of the constant 13 that
accounts for the fixed overhead of the routine. -/
def greenSub (d : Nat) : Nat := (d + 256 - 13) % 256

/-- Cycle cost and final register value of the reduction loop
`1: subi %[tick], 4 / 2: cpi %[tick], 4 / brcc 1b`.  Entering at label
2 with value `t`: if `t < 4` the check costs `cpi`(1) + `brcc` not
taken (1); otherwise one iteration costs `brcc` taken (2) + `subi` (1)
+ `cpi` (1) and continues with `t - 4`. -/
def waitLoop : Nat → Nat × Nat
  | 0 => (2, 0)
  | 1 => (2, 1)
  | 2 => (2, 2)
  | 3 => (2, 3)
  | (t + 4) =>
    let p := waitLoop t
    (4 + p.1, p.2)

/-- Cycle cost of the remainder dispatch
`cpi 0 / breq 3f / cpi 1 / breq 1f / cpi 2 / breq 2f / 0: nop / 1: nop
/ 2: nop / 3:` for each possible remainder value 0..3, following the
actual branch targets (`breq 3f` jumps past all three nops). -/
def remCost (t : Nat) : Nat :=
  if t = 0 then 1 + 2
  else 1 + 1 +
    (if t = 1 then 1 + 2 + (1 + 1)
     else 1 + 1 +
       (if t = 2 then 1 + 2 + 1
        else 1 + 1 + (1 + 1 + 1)))

/-- Total simulated cycle cost of the v1.1 `waitTimer1` body as a
function of the already-computed delta: preamble `sub`(1) + `sub 13`(1)
+ `rjmp`(2), then the reduction loop, then the remainder dispatch. -/
def cyclesOfDelta (d : Nat) : Nat :=
  let t := greenSub d
  4 + (waitLoop t).1 + remCost (waitLoop t).2

/-- Total simulated cycle cost of `waitTimer1(tick)` entered while the
counter low byte reads `tcnt1l`. -/
def waitTimer1Cycles (tick tcnt1l : Nat) : Nat :=
  cyclesOfDelta (waitDelta tick tcnt1l)

end V1

namespace V0

/-- `#define SYNCH_PULSE 0` (part_000). -/
def SYNCH_PULSE : Nat := 0

/-- `#define BACK_PORCH 1` (part_000). -/
def BACK_PORCH : Nat := 1

/-- `#define ACTIVE_VIDEO 2` (part_000). -/
def ACTIVE_VIDEO : Nat := 2

/-- `#define FRONT_PORCH 3` (part_000). -/
def FRONT_PORCH : Nat := 3

/-- `#define H_FRONT_PORCH_LINES 11` (part_000 swaps the H/V naming). -/
def H_FRONT_PORCH_LINES : Int := 11

/-- `#define H_SYNCH_PULSE_LINES 2`. -/
def H_SYNCH_PULSE_LINES : Int := 2

/-- `#define H_BACK_PORCH_LINES 31`. -/
def H_BACK_PORCH_LINES : Int := 31

/-- `#define H_ACTIVE_VIDEO_LINES 480`. -/
def H_ACTIVE_VIDEO_LINES : Int := 480

/-- `int nb_line_modes[] = {H_SYNCH_PULSE_LINES, H_BACK_PORCH_LINES,
H_ACTIVE_VIDEO_LINES, H_FRONT_PORCH_LINES};` (part_000). -/
def nb_line_modes : List Int :=
  [H_SYNCH_PULSE_LINES, H_BACK_PORCH_LINES, H_ACTIVE_VIDEO_LINES, H_FRONT_PORCH_LINES]

/-- `#define V_SYNCH_PULSE_TICKS 61` (part_000). -/
def V_SYNCH_PULSE_TICKS : Nat := 61

/-- `#define V_BACK_PORCH_TICKS 30`. -/
def V_BACK_PORCH_TICKS : Nat := 30

/-- `#define V_ACTIVE_VIDEO_TICKS 406`. -/
def V_ACTIVE_VIDEO_TICKS : Nat := 406

/-- `#define V_FRONT_PORCH_TICKS 10`. -/
def V_FRONT_PORCH_TICKS : Nat := 10

/-- `#define V_FULL_LINE_NB_TICKS` = 61+30+406+10 = 507; programmed into
`ICR1`, so `TCNT1` counts 0..507 within one line. -/
def V_FULL_LINE_NB_TICKS : Nat :=
  V_SYNCH_PULSE_TICKS + V_BACK_PORCH_TICKS + V_ACTIVE_VIDEO_TICKS + V_FRONT_PORCH_TICKS

/-- The two persistent state variables `byte phase; int line_number;`. -/
structure State where
  phase : Nat
  line_number : Int
deriving DecidableEq

/-- `incrementLineNumber` of part_000:
`line_number++; if (line_number == nb_line_modes[phase])
{ line_number = 0; phase++; phase &= 0x03; }`. -/
def incrementLineNumber (s : State) : State :=
  let ln := s.line_number + 1
  if ln = nb_line_modes.getD s.phase 0 then
    ⟨(s.phase + 1) &&& 0x03, 0⟩
  else
    ⟨s.phase, ln⟩

/-- `#define RED _BV(RED_PIN)` with `RED_PIN 7` (part_000). -/
def RED : Nat := BV 7

/-- `#define GREEN _BV(GREEN_PIN)` with `GREEN_PIN 6`. -/
def GREEN : Nat := BV 6

/-- `#define BLUE _BV(BLUE_PIN)` with `BLUE_PIN 5`. -/
def BLUE : Nat := BV 5

/-- `#define CYAN (_BV(GREEN_PIN)|_BV(BLUE_PIN))`. -/
def CYAN : Nat := BV 6 ||| BV 5

/-- `#define YELLOW (_BV(RED_PIN)|_BV(GREEN_PIN))`. -/
def YELLOW : Nat := BV 7 ||| BV 6

/-- `#define MAGENTA (_BV(RED_PIN)|_BV(BLUE_PIN))`. -/
def MAGENTA : Nat := BV 7 ||| BV 5

/-- `#define WHITE (_BV(RED_PIN)|_BV(GREEN_PIN)|_BV(BLUE_PIN))`. -/
def WHITE : Nat := BV 7 ||| BV 6 ||| BV 5

/-- `#define BLACK 0`. -/
def BLACK : Nat := 0

/-- `#define VSYNCH_PIN 1` (part_000, port B). -/
def VSYNCH_PIN : Nat := 1

/-- `#define HSYNCH_PIN 0` (part_000, port B; the sync writes in the
handler use this pin). -/
def HSYNCH_PIN : Nat := 0

/-- Observable actions performed by the v1.0 interrupt handler, in
program order.  `waitT` records the `int` expression passed to
`waitTimer1`; the conversion to the `byte` parameter is `byteOf`. -/
inductive Ev where
  | waitT (tick : Nat)
  | portD (v : Nat)
  | portBClear (pin : Nat)
  | portBSet (pin : Nat)
deriving DecidableEq

/-- `PORT(RGB_PORT) = v` argument of an event, if it is such a write. -/
def Ev.rgbArg : Ev → Option Nat
  | .portD v => some v
  | _ => none

/-- `waitTimer1` argument of an event, if it is such a call. -/
def Ev.waitArg : Ev → Option Nat
  | .waitT t => some t
  | _ => none

/-- Whether an event mutates the sync output port (port B). -/
def Ev.isSyncWrite : Ev → Bool
  | .portBClear _ => true
  | .portBSet _ => true
  | _ => false

/-- Event trace of one invocation of the v1.0 `ISR(TIMER1_CAPT_vect)`
body before its final `incrementLineNumber()` call. -/
def isrEvents (s : State) : List Ev :=
  Ev.waitT (V_SYNCH_PULSE_TICKS + V_BACK_PORCH_TICKS) ::
  (if s.phase = FRONT_PORCH then
    (if s.line_number = H_FRONT_PORCH_LINES - 1 then [.portBClear HSYNCH_PIN] else [])
  else if s.phase = SYNCH_PULSE then
    (if s.line_number = H_SYNCH_PULSE_LINES - 1 then [.portBSet HSYNCH_PIN] else [])
  else if s.phase = ACTIVE_VIDEO then
    [.portD RED,
     .waitT (V_SYNCH_PULSE_TICKS + V_BACK_PORCH_TICKS + V_ACTIVE_VIDEO_TICKS / 8),
     .portD GREEN,
     .waitT (V_SYNCH_PULSE_TICKS + V_BACK_PORCH_TICKS + (V_ACTIVE_VIDEO_TICKS * 2) / 8),
     .portD BLUE,
     .waitT (V_SYNCH_PULSE_TICKS + V_BACK_PORCH_TICKS + (V_ACTIVE_VIDEO_TICKS * 3) / 8),
     .portD CYAN,
     .waitT (V_SYNCH_PULSE_TICKS + V_BACK_PORCH_TICKS + (V_ACTIVE_VIDEO_TICKS * 4) / 8),
     .portD YELLOW,
     .waitT (V_SYNCH_PULSE_TICKS + V_BACK_PORCH_TICKS + (V_ACTIVE_VIDEO_TICKS * 5) / 8),
     .portD MAGENTA,
     .waitT (V_SYNCH_PULSE_TICKS + V_BACK_PORCH_TICKS + (V_ACTIVE_VIDEO_TICKS * 6) / 8),
     .portD BLACK,
     .waitT (V_SYNCH_PULSE_TICKS + V_BACK_PORCH_TICKS + (V_ACTIVE_VIDEO_TICKS * 7) / 8),
     .portD WHITE,
     .waitT (V_SYNCH_PULSE_TICKS + V_BACK_PORCH_TICKS + V_ACTIVE_VIDEO_TICKS),
     .portD (BV VSYNCH_PIN ||| BV HSYNCH_PIN)]
  else [])

/-- The event trace of one ActiveVideo invocation (independent of the
line counter, see `C4_bands`). -/
def activeLineEvents : List Ev := isrEvents ⟨ACTIVE_VIDEO, 0⟩

/-- Nominal (pre-truncation) tick target of the `k`-th band boundary,
`k = 0..8`: sync + back porch + `(active * k) / 8`. -/
def bandWaitArg (k : Nat) : Nat :=
  V_SYNCH_PULSE_TICKS + V_BACK_PORCH_TICKS + (V_ACTIVE_VIDEO_TICKS * k) / 8

/-- The color written into band `k` (`k = 0..7`). -/
def bandColor (k : Nat) : Nat :=
  [RED, GREEN, BLUE, CYAN, YELLOW, MAGENTA, BLACK, WHITE].getD k 0

/-- The loop condition of the v1.0 `waitTimer1`:
`do { } while (TCNT1L < tick)` keeps looping while the current reading
is below the (byte) target. -/
def waitKeepsLooping (tcnt1l tick : Nat) : Bool := tcnt1l < tick

/-- A value is a reachable `TCNT1L` reading: the low byte of some
counter value in `0..V_FULL_LINE_NB_TICKS` (the programmed top). -/
def ReachableTCNT1L (v : Nat) : Prop :=
  ∃ t, t ≤ V_FULL_LINE_NB_TICKS ∧ v = t % 256

/-- `bitClear` / `bitSet` effect of one handler event on the sync
output port (port B, one byte). -/
def applyEv (b : Nat) (e : Ev) : Nat :=
  match e with
  | .portBClear pin => b &&& (255 ^^^ (1 <<< pin))
  | .portBSet pin => b ||| (1 <<< pin)
  | _ => b

/-- State machine state together with the sync output port value. -/
structure Sys where
  st : State
  portB : Nat
deriving DecidableEq

/-- One full interrupt: perform the handler's port writes, then
`incrementLineNumber()`. -/
def stepISR (sys : Sys) : Sys :=
  ⟨incrementLineNumber sys.st, (isrEvents sys.st).foldl applyEv sys.portB⟩

/-- Initial system state from `init_video`: `line_number = 0; phase =
FRONT_PORCH;` and `PORT(SYNCH_PORT) = (_BV(VSYNCH_PIN)|_BV(HSYNCH_PIN))`. -/
def initSys : Sys := ⟨⟨FRONT_PORCH, 0⟩, BV VSYNCH_PIN ||| BV HSYNCH_PIN⟩

/-- Line-index invariant (`0 ≤ index < maxLinesForCurrentPhase`)
together with the sync level: the sync bit is low exactly during the
SyncPulse phase. -/
def SyncInv (sys : Sys) : Prop :=
  sys.st.phase < 4 ∧ 0 ≤ sys.st.line_number ∧
  sys.st.line_number < nb_line_modes.getD sys.st.phase 0 ∧
  (sys.portB.testBit HSYNCH_PIN = true ↔ sys.st.phase ≠ SYNCH_PULSE)

/-- The designated boundary lines: last line of FrontPorch, last line
of SyncPulse. -/
def syncBoundary (s : State) : Prop :=
  (s.phase = FRONT_PORCH ∧ s.line_number = H_FRONT_PORCH_LINES - 1) ∨
  (s.phase = SYNCH_PULSE ∧ s.line_number = H_SYNCH_PULSE_LINES - 1)

/-- Bare line-index invariant of the claim (v1.0 formulation). -/
def lineIndexInv (s : State) : Prop :=
  0 ≤ s.line_number ∧ s.line_number < nb_line_modes.getD s.phase 0

end V0

instance (s : V1.State) : Decidable (V1.counterInv s) :=
  inferInstanceAs (Decidable (s.phase < 4 ∧ 0 < s.lines_left ∧
    s.lines_left ≤ V1.nb_line_modes.getD s.phase 0))

instance (s : V0.State) : Decidable (V0.lineIndexInv s) :=
  inferInstanceAs (Decidable (0 ≤ s.line_number ∧
    s.line_number < V0.nb_line_modes.getD s.phase 0))

instance (sys : V0.Sys) : Decidable (V0.SyncInv sys) :=
  inferInstanceAs (Decidable (sys.st.phase < 4 ∧ 0 ≤ sys.st.line_number ∧
    sys.st.line_number < V0.nb_line_modes.getD sys.st.phase 0 ∧
    (sys.portB.testBit V0.HSYNCH_PIN = true ↔ sys.st.phase ≠ V0.SYNCH_PULSE)))

instance (s : V0.State) : Decidable (V0.syncBoundary s) :=
  inferInstanceAs (Decidable (
    (s.phase = V0.FRONT_PORCH ∧ s.line_number = V0.H_FRONT_PORCH_LINES - 1) ∨
    (s.phase = V0.SYNCH_PULSE ∧ s.line_number = V0.H_SYNCH_PULSE_LINES - 1)))

namespace V1

theorem stateAt_succ (n : Nat) : stateAt (n + 1) = incrementLineNumber (stateAt n) :=
  Function.iterate_succ_apply' incrementLineNumber n initState

theorem closedForm_correct : ∀ r, r < 524 → stateAt r = closedForm r := by
  intro r
  induction r with
  | zero => intro _; decide
  | succ r ih =>
    intro h
    rw [stateAt_succ, ih (by omega)]
    simp only [closedForm, incrementLineNumber]
    split_ifs <;>
      first
        | rfl
        | (exfalso; push_cast at *; omega)
        | (simp only [State.mk.injEq]
           refine ⟨by decide, ?_⟩
           try simp only [show nb_line_modes.getD (FRONT_PORCH + 1 &&& 3) 0 = 2 from rfl,
             show nb_line_modes.getD (SYNCH_PULSE + 1 &&& 3) 0 = 31 from rfl,
             show nb_line_modes.getD (BACK_PORCH + 1 &&& 3) 0 = 480 from rfl,
             show nb_line_modes.getD (ACTIVE_VIDEO + 1 &&& 3) 0 = 11 from rfl]
           push_cast
           omega)

theorem stateAt_524 : stateAt 524 = initState := by
  have h : stateAt 523 = closedForm 523 := closedForm_correct 523 (by omega)
  rw [show (524 : Nat) = 523 + 1 from rfl, stateAt_succ, h]
  decide

theorem stateAt_add_524 (n : Nat) : stateAt (n + 524) = stateAt n := by
  unfold stateAt
  rw [Function.iterate_add_apply]
  exact congrArg _ stateAt_524

theorem stateAt_mod (n : Nat) : stateAt n = stateAt (n % 524) := by
  induction n using Nat.strong_induction_on with
  | _ n ih =>
    by_cases h : n < 524
    · rw [Nat.mod_eq_of_lt h]
    · have e : n = (n - 524) + 524 := by omega
      rw [e, stateAt_add_524, ih (n - 524) (by omega)]
      congr 1
      omega

theorem iterate_from (a b : Nat) :
    incrementLineNumber^[b] (stateAt a) = stateAt (a + b) := by
  unfold stateAt
  rw [Nat.add_comm a b, Function.iterate_add_apply]

theorem phase_lt (n : Nat) : (stateAt n).phase < 4 := by
  rw [stateAt_mod n]
  have h : ∀ r, r < 524 → (closedForm r).phase < 4 := by decide
  rw [closedForm_correct _ (Nat.mod_lt _ (by omega))]
  exact h _ (Nat.mod_lt _ (by omega))

theorem checked_agrees (s : State) :
    incrementLineNumberChecked s = some (incrementLineNumber s) := by
  unfold incrementLineNumberChecked incrementLineNumber
  by_cases hll : s.lines_left - 1 = 0
  · have hp : (s.phase + 1) &&& 0x03 < 4 := Nat.lt_succ_of_le Nat.and_le_right
    have hget : ∀ q, q < 4 → nb_line_modes.get? q = some (nb_line_modes.getD q 0) := by decide
    simp only [if_pos hll, hget _ hp]
  · simp only [if_neg hll]

theorem entersSync_iff (n : Nat) : entersSyncPulse n ↔ n % 524 = 10 := by
  have hr : n % 524 < 524 := Nat.mod_lt _ (by omega)
  unfold entersSyncPulse phaseAt
  rw [stateAt_mod n, stateAt_mod (n + 1)]
  by_cases h : n % 524 = 523
  · rw [h, show (n + 1) % 524 = 0 by omega]
    rw [closedForm_correct 0 (by omega), closedForm_correct 523 (by omega)]
    decide
  · rw [show (n + 1) % 524 = n % 524 + 1 by omega]
    rw [closedForm_correct _ (by omega), closedForm_correct _ hr]
    have hb : ∀ r, r < 523 →
        (((closedForm (r + 1)).phase = SYNCH_PULSE ∧ (closedForm r).phase ≠ SYNCH_PULSE) ↔
          r = 10) := by decide
    exact (hb _ (by omega)).trans (by omega)

end V1

namespace V0

theorem getD0 : nb_line_modes.getD 0 0 = 2 := rfl

theorem getD1 : nb_line_modes.getD 1 0 = 31 := rfl

theorem getD2 : nb_line_modes.getD 2 0 = 480 := rfl

theorem getD3 : nb_line_modes.getD 3 0 = 11 := rfl

theorem step_sp_boundary (b : Nat) :
    stepISR ⟨⟨0, 1⟩, b⟩ = ⟨⟨1, 0⟩, b ||| 1 <<< 0⟩ := by
  show (⟨incrementLineNumber ⟨0, 1⟩, b ||| 1 <<< 0⟩ : Sys) = ⟨⟨1, 0⟩, b ||| 1 <<< 0⟩
  rw [show incrementLineNumber ⟨0, 1⟩ = ⟨1, 0⟩ from by decide]

theorem step_fp_boundary (b : Nat) :
    stepISR ⟨⟨3, 10⟩, b⟩ = ⟨⟨0, 0⟩, b &&& (255 ^^^ 1 <<< 0)⟩ := by
  show (⟨incrementLineNumber ⟨3, 10⟩, b &&& (255 ^^^ 1 <<< 0)⟩ : Sys) = ⟨⟨0, 0⟩, _⟩
  rw [show incrementLineNumber ⟨3, 10⟩ = ⟨0, 0⟩ from by decide]

theorem step_sp_inner (b : Nat) (ln : Int) (h : ln ≠ 1) :
    stepISR ⟨⟨0, ln⟩, b⟩ = ⟨incrementLineNumber ⟨0, ln⟩, b⟩ := by
  show (⟨incrementLineNumber ⟨0, ln⟩,
    (isrEvents ⟨0, ln⟩).foldl applyEv b⟩ : Sys) = _
  rw [show isrEvents ⟨0, ln⟩
      = Ev.waitT 91 :: (if ln = (1:Int) then [.portBSet 0] else []) from rfl]
  rw [if_neg h]
  rfl

theorem step_fp_inner (b : Nat) (ln : Int) (h : ln ≠ 10) :
    stepISR ⟨⟨3, ln⟩, b⟩ = ⟨incrementLineNumber ⟨3, ln⟩, b⟩ := by
  show (⟨incrementLineNumber ⟨3, ln⟩,
    (isrEvents ⟨3, ln⟩).foldl applyEv b⟩ : Sys) = _
  rw [show isrEvents ⟨3, ln⟩
      = Ev.waitT 91 :: (if ln = (10:Int) then [.portBClear 0] else []) from rfl]
  rw [if_neg h]
  rfl

theorem step_bp (b : Nat) (ln : Int) :
    stepISR ⟨⟨1, ln⟩, b⟩ = ⟨incrementLineNumber ⟨1, ln⟩, b⟩ := rfl

theorem step_av (b : Nat) (ln : Int) :
    stepISR ⟨⟨2, ln⟩, b⟩ = ⟨incrementLineNumber ⟨2, ln⟩, b⟩ := rfl

theorem inc_inner (p : Nat) (ln : Int) (h : ln + 1 ≠ nb_line_modes.getD p 0) :
    incrementLineNumber ⟨p, ln⟩ = ⟨p, ln + 1⟩ := by
  unfold incrementLineNumber
  rw [if_neg h]

theorem testBit0_or (b : Nat) : (b ||| 1 <<< 0).testBit 0 = true := by
  simp [Nat.testBit_or]

theorem testBit0_and254 (b : Nat) : (b &&& (255 ^^^ 1 <<< 0)).testBit 0 = false := by
  simp only [Nat.shiftLeft_zero, show ((255 : Nat) ^^^ 1) = 254 from rfl, Nat.testBit_and]
  simp [show Nat.testBit 254 0 = false from rfl]

end V0

namespace V0

theorem step_full (sys : Sys) (hinv : SyncInv sys) :
    SyncInv (stepISR sys) ∧
    (syncBoundary sys.st →
      (stepISR sys).portB.testBit HSYNCH_PIN = ! sys.portB.testBit HSYNCH_PIN) ∧
    (¬ syncBoundary sys.st → (stepISR sys).portB = sys.portB) := by
  obtain ⟨⟨p, ln⟩, b⟩ := sys
  obtain ⟨h4, h0, hlt, hbit⟩ := hinv
  dsimp only at h4 h0 hlt hbit ⊢
  simp only [SYNCH_PULSE, HSYNCH_PIN] at hbit
  interval_cases p
  · -- SYNCH_PULSE lines
    rw [getD0] at hlt
    have hb0 : b.testBit 0 = false := by
      cases hx : b.testBit 0
      · rfl
      · exact absurd (hbit.mp hx) (by simp)
    by_cases hb : ln = (1:Int)
    · subst hb
      rw [step_sp_boundary]
      refine ⟨?_, fun _ => ?_, fun hnb => ?_⟩
      · simp only [SyncInv, SYNCH_PULSE, HSYNCH_PIN, getD1]
        exact ⟨by norm_num, by norm_num, by norm_num, by simp [testBit0_or]⟩
      · simp only [HSYNCH_PIN, testBit0_or, hb0, Bool.not_false]
      · exact absurd (Or.inr ⟨rfl, by decide⟩) hnb
    · rw [step_sp_inner b ln hb, inc_inner 0 ln (by rw [getD0]; omega)]
      refine ⟨?_, fun hbd => ?_, fun _ => rfl⟩
      · simp only [SyncInv, SYNCH_PULSE, HSYNCH_PIN, getD0]
        exact ⟨by norm_num, by omega, by omega, by simp [hb0]⟩
      · rcases hbd with ⟨hp, _⟩ | ⟨_, hl⟩
        · exact absurd hp (by simp [FRONT_PORCH])
        · exact absurd hl (by simpa [H_SYNCH_PULSE_LINES] using hb)
  · -- BACK_PORCH lines
    rw [getD1] at hlt
    have hb1 : b.testBit 0 = true := hbit.mpr (by simp)
    rw [step_bp]
    have hnb : ¬ syncBoundary ⟨1, ln⟩ := by
      rintro (⟨hp, _⟩ | ⟨hp, _⟩) <;> simp [FRONT_PORCH, SYNCH_PULSE] at hp
    refine ⟨?_, fun hbd => absurd hbd hnb, fun _ => rfl⟩
    by_cases hc : ln + 1 = (31:Int)
    · rw [show incrementLineNumber ⟨1, ln⟩ = ⟨2, 0⟩ from by
        unfold incrementLineNumber
        dsimp only
        rw [if_pos (show ln + 1 = nb_line_modes.getD 1 0 by rw [getD1]; omega)]
        rfl]
      simp only [SyncInv, SYNCH_PULSE, HSYNCH_PIN, getD2]
      exact ⟨by norm_num, by norm_num, by norm_num, by simp [hb1]⟩
    · rw [inc_inner 1 ln (by rw [getD1]; omega)]
      simp only [SyncInv, SYNCH_PULSE, HSYNCH_PIN, getD1]
      exact ⟨by norm_num, by omega, by omega, by simp [hb1]⟩
  · -- ACTIVE_VIDEO lines
    rw [getD2] at hlt
    have hb1 : b.testBit 0 = true := hbit.mpr (by simp)
    rw [step_av]
    have hnb : ¬ syncBoundary ⟨2, ln⟩ := by
      rintro (⟨hp, _⟩ | ⟨hp, _⟩) <;> simp [FRONT_PORCH, SYNCH_PULSE] at hp
    refine ⟨?_, fun hbd => absurd hbd hnb, fun _ => rfl⟩
    by_cases hc : ln + 1 = (480:Int)
    · rw [show incrementLineNumber ⟨2, ln⟩ = ⟨3, 0⟩ from by
        unfold incrementLineNumber
        dsimp only
        rw [if_pos (show ln + 1 = nb_line_modes.getD 2 0 by rw [getD2]; omega)]
        rfl]
      simp only [SyncInv, SYNCH_PULSE, HSYNCH_PIN, getD3]
      exact ⟨by norm_num, by norm_num, by norm_num, by simp [hb1]⟩
    · rw [inc_inner 2 ln (by rw [getD2]; omega)]
      simp only [SyncInv, SYNCH_PULSE, HSYNCH_PIN, getD2]
      exact ⟨by norm_num, by omega, by omega, by simp [hb1]⟩
  · -- FRONT_PORCH lines
    rw [getD3] at hlt
    have hb1 : b.testBit 0 = true := hbit.mpr (by simp)
    by_cases hb : ln = (10:Int)
    · subst hb
      rw [step_fp_boundary]
      refine ⟨?_, fun _ => ?_, fun hnb => ?_⟩
      · simp only [SyncInv, SYNCH_PULSE, HSYNCH_PIN, getD0]
        exact ⟨by norm_num, by norm_num, by norm_num, by simp [testBit0_and254]⟩
      · simp only [HSYNCH_PIN, testBit0_and254, hb1, Bool.not_true]
      · exact absurd (Or.inl ⟨rfl, by decide⟩) hnb
    · rw [step_fp_inner b ln hb, inc_inner 3 ln (by rw [getD3]; omega)]
      refine ⟨?_, fun hbd => ?_, fun _ => rfl⟩
      · simp only [SyncInv, SYNCH_PULSE, HSYNCH_PIN, getD3]
        exact ⟨by norm_num, by omega, by omega, by simp [hb1]⟩
      · rcases hbd with ⟨_, hl⟩ | ⟨hp, _⟩
        · exact absurd hl (by simpa [H_FRONT_PORCH_LINES] using hb)
        · exact absurd hp (by simp [SYNCH_PULSE])

end V0

namespace V1

theorem boundary_trace (s : State) (hp : s.phase = FRONT_PORCH ∨ s.phase = SYNCH_PULSE)
    (hl : s.lines_left = 1) :
    isrEvents s = [.waitT (H_SYNCH_PULSE_TICKS + H_BACK_PORCH_TICKS),
      .portBXor (BV VSYNCH_PIN)] := by
  obtain ⟨p, ll⟩ := s
  dsimp only at hp hl
  subst hl
  rcases hp with rfl | rfl <;> rfl

theorem sync_filter (s : State) : (isrEvents s).filter Ev.isSyncWrite =
    if (s.phase = FRONT_PORCH ∨ s.phase = SYNCH_PULSE) ∧ s.lines_left = 1 then
      [Ev.portBXor (BV VSYNCH_PIN)]
    else [] := by
  obtain ⟨p, ll⟩ := s
  simp only [isrEvents, ACTIVE_VIDEO, FRONT_PORCH, SYNCH_PULSE]
  split_ifs <;> first | rfl | simp_all

theorem xor_toggles (b : Nat) :
    (applyEv b (.portBXor (BV VSYNCH_PIN))).testBit VSYNCH_PIN = ! b.testBit VSYNCH_PIN := by
  simp only [applyEv, BV, VSYNCH_PIN, Nat.shiftLeft_zero, Nat.testBit_xor]
  rcases Nat.mod_two_eq_zero_or_one b with h | h <;> simp [Nat.testBit, h]

end V1

namespace V0

theorem fp_boundary_trace (s : State) (hp : s.phase = FRONT_PORCH)
    (hl : s.line_number = H_FRONT_PORCH_LINES - 1) :
    isrEvents s = [.waitT (V_SYNCH_PULSE_TICKS + V_BACK_PORCH_TICKS),
      .portBClear HSYNCH_PIN] := by
  obtain ⟨p, ln⟩ := s
  dsimp only at hp hl
  subst hp
  subst hl
  rfl

theorem sp_boundary_trace (s : State) (hp : s.phase = SYNCH_PULSE)
    (hl : s.line_number = H_SYNCH_PULSE_LINES - 1) :
    isrEvents s = [.waitT (V_SYNCH_PULSE_TICKS + V_BACK_PORCH_TICKS),
      .portBSet HSYNCH_PIN] := by
  obtain ⟨p, ln⟩ := s
  dsimp only at hp hl
  subst hp
  subst hl
  rfl

theorem sync_filter0 (s : State) : (isrEvents s).filter Ev.isSyncWrite =
    if s.phase = FRONT_PORCH ∧ s.line_number = H_FRONT_PORCH_LINES - 1 then
      [Ev.portBClear HSYNCH_PIN]
    else if s.phase = SYNCH_PULSE ∧ s.line_number = H_SYNCH_PULSE_LINES - 1 then
      [Ev.portBSet HSYNCH_PIN]
    else [] := by
  obtain ⟨p, ln⟩ := s
  simp only [isrEvents, ACTIVE_VIDEO, FRONT_PORCH, SYNCH_PULSE]
  split_ifs <;> first | rfl | simp_all

end V0

/-- Claim C1: from the initialized state, successive `incrementLineNumber`
calls move the phase through SyncPulse, BackPorch, ActiveVideo, FrontPorch
in that fixed cyclic order without ever skipping a phase, and two
consecutive entries into SyncPulse are exactly 2+31+480+11 = 524 advance
calls apart (entries happen exactly at call indices congruent to 10
modulo 524). -/
theorem C1_phase_cycle :
    (V1.nextPhase V1.SYNCH_PULSE = V1.BACK_PORCH ∧
     V1.nextPhase V1.BACK_PORCH = V1.ACTIVE_VIDEO ∧
     V1.nextPhase V1.ACTIVE_VIDEO = V1.FRONT_PORCH ∧
     V1.nextPhase V1.FRONT_PORCH = V1.SYNCH_PULSE) ∧
    V1.nb_line_modes.foldl (fun a b => a + b) 0 = 524 ∧
    (∀ n : Nat, V1.phaseAt (n + 1) = V1.phaseAt n ∨
      V1.phaseAt (n + 1) = V1.nextPhase (V1.phaseAt n)) ∧
    (∀ n : Nat, V1.entersSyncPulse n ↔ n % 524 = 10) ∧
    (∀ m n : Nat, V1.entersSyncPulse m → V1.entersSyncPulse n → m < n →
      (∀ k, m < k → k < n → ¬ V1.entersSyncPulse k) → n = m + 524) := by
  refine ⟨by decide, by decide, ?_, V1.entersSync_iff, ?_⟩
  · intro n
    unfold V1.phaseAt V1.nextPhase
    rw [V1.stateAt_succ]
    unfold V1.incrementLineNumber
    by_cases h : (V1.stateAt n).lines_left - 1 = 0
    · rw [if_pos h]
      right
      rfl
    · rw [if_neg h]
      left
      rfl
  · intro m n hm hn hmn hbetween
    have hm' := (V1.entersSync_iff m).mp hm
    have hn' := (V1.entersSync_iff n).mp hn
    by_contra hne
    exact hbetween (m + 524) (by omega) (by omega)
      ((V1.entersSync_iff (m + 524)).mpr (by omega))

/-- Witness for C1: the 11th advance call (index 10) enters SyncPulse,
the next entry is at index 534, and they are 524 calls apart. -/
theorem C1_phase_cycle_witness :
    V1.entersSyncPulse 10 ∧ V1.entersSyncPulse 534 ∧ 534 = 10 + 524 := by
  have h10 : V1.entersSyncPulse 10 := (C1_phase_cycle.2.2.2.1 10).mpr (by norm_num)
  have h534 : V1.entersSyncPulse 534 := (C1_phase_cycle.2.2.2.1 534).mpr (by norm_num)
  refine ⟨h10, h534, C1_phase_cycle.2.2.2.2 10 534 h10 h534 (by norm_num) ?_⟩
  intro k h1 h2 hk
  have := (C1_phase_cycle.2.2.2.1 k).mp hk
  omega

/-- Claim C6: from the top of any phase `p` with its full line allotment
loaded, exactly `count(p)` advance calls reach the successor phase with
the successor's full allotment loaded. -/
theorem C6_phase_exhaustion : ∀ p : Nat, p < 4 →
    V1.incrementLineNumber^[(V1.nb_line_modes.getD p 0).toNat]
        ⟨p, V1.nb_line_modes.getD p 0⟩
      = ⟨V1.nextPhase p, V1.nb_line_modes.getD (V1.nextPhase p) 0⟩ := by
  intro p hp
  interval_cases p
  · have h : V1.stateAt 11 = ⟨0, V1.nb_line_modes.getD 0 0⟩ := by
      rw [V1.closedForm_correct 11 (by omega)]
      decide
    rw [show (V1.nb_line_modes.getD 0 0).toNat = 2 from rfl, ← h, V1.iterate_from 11 2]
    rw [show (11 + 2 : Nat) = 13 from rfl, V1.closedForm_correct 13 (by omega)]
    decide
  · have h : V1.stateAt 13 = ⟨1, V1.nb_line_modes.getD 1 0⟩ := by
      rw [V1.closedForm_correct 13 (by omega)]
      decide
    rw [show (V1.nb_line_modes.getD 1 0).toNat = 31 from rfl, ← h, V1.iterate_from 13 31]
    rw [show (13 + 31 : Nat) = 44 from rfl, V1.closedForm_correct 44 (by omega)]
    decide
  · have h : V1.stateAt 44 = ⟨2, V1.nb_line_modes.getD 2 0⟩ := by
      rw [V1.closedForm_correct 44 (by omega)]
      decide
    rw [show (V1.nb_line_modes.getD 2 0).toNat = 480 from rfl, ← h, V1.iterate_from 44 480]
    rw [show (44 + 480 : Nat) = 524 from rfl, V1.stateAt_524]
    decide
  · have h : V1.stateAt 0 = ⟨3, V1.nb_line_modes.getD 3 0⟩ := rfl
    rw [show (V1.nb_line_modes.getD 3 0).toNat = 11 from rfl, ← h, V1.iterate_from 0 11]
    rw [show (0 + 11 : Nat) = 11 from rfl, V1.closedForm_correct 11 (by omega)]
    decide

/-- Witness for C6: two advance calls from the top of SyncPulse reach
the top of BackPorch. -/
theorem C6_phase_exhaustion_witness :
    V1.incrementLineNumber^[(V1.nb_line_modes.getD 0 0).toNat]
        ⟨0, V1.nb_line_modes.getD 0 0⟩
      = ⟨V1.nextPhase 0, V1.nb_line_modes.getD (V1.nextPhase 0) 0⟩ :=
  C6_phase_exhaustion 0 (by norm_num)

/-- Claim C7: the counter predicate `0 < lines_left ≤
nb_line_modes[phase]` holds in the initialized state and is preserved by
every `incrementLineNumber` call; at the boundary the phase advances and
the counter is reloaded with the next phase's fixed line count.  The
count-up variant preserves `0 ≤ line_number < nb_line_modes[phase]`. -/
theorem C7_counter_invariant :
    V1.counterInv V1.initState ∧
    (∀ s, V1.counterInv s → V1.counterInv (V1.incrementLineNumber s)) ∧
    (∀ s : V1.State, s.lines_left = 1 →
      V1.incrementLineNumber s
        = ⟨V1.nextPhase s.phase, V1.nb_line_modes.getD (V1.nextPhase s.phase) 0⟩) ∧
    V0.lineIndexInv ⟨V0.FRONT_PORCH, 0⟩ ∧
    (∀ s, V0.lineIndexInv s → V0.lineIndexInv (V0.incrementLineNumber s)) := by
  refine ⟨by decide, ?_, ?_, by decide, ?_⟩
  · rintro ⟨p, ll⟩ ⟨h4, h0, hb⟩
    simp only [V1.counterInv, V1.incrementLineNumber] at *
    interval_cases p <;>
      split_ifs <;>
        simp_all [V1.nb_line_modes, V1.V_SYNCH_PULSE_LINES, V1.V_BACK_PORCH_LINES,
          V1.V_ACTIVE_VIDEO_LINES, V1.V_FRONT_PORCH_LINES,
          show ((1 : Nat) &&& 3) = 1 from rfl, show ((2 : Nat) &&& 3) = 2 from rfl,
          show ((3 : Nat) &&& 3) = 3 from rfl, show ((4 : Nat) &&& 3) = 0 from rfl] <;>
        omega
  · intro s h
    unfold V1.incrementLineNumber V1.nextPhase
    rw [if_pos (by rw [h]; norm_num)]
  · rintro ⟨p, ln⟩ ⟨h0, hlt⟩
    dsimp only at h0 hlt
    by_cases hp : p < 4
    · interval_cases p <;>
      · unfold V0.incrementLineNumber
        dsimp only
        split_ifs with hc
        · first
            | exact (by decide : V0.lineIndexInv ⟨0 + 1 &&& 3, 0⟩)
            | exact (by decide : V0.lineIndexInv ⟨1 + 1 &&& 3, 0⟩)
            | exact (by decide : V0.lineIndexInv ⟨2 + 1 &&& 3, 0⟩)
            | exact (by decide : V0.lineIndexInv ⟨3 + 1 &&& 3, 0⟩)
        · refine ⟨by dsimp only; omega, ?_⟩
          dsimp only
          first
            | (rw [V0.getD0] at hc hlt ⊢; omega)
            | (rw [V0.getD1] at hc hlt ⊢; omega)
            | (rw [V0.getD2] at hc hlt ⊢; omega)
            | (rw [V0.getD3] at hc hlt ⊢; omega)
    · exfalso
      rw [List.getD_eq_default _ _ (by simpa [V0.nb_line_modes] using hp)] at hlt
      omega

/-- Witness for C7: the invariants are preserved across the
FrontPorch-to-SyncPulse boundary in both variants. -/
theorem C7_counter_invariant_witness :
    V1.counterInv (V1.incrementLineNumber ⟨3, 1⟩) ∧
    V0.lineIndexInv (V0.incrementLineNumber ⟨3, 10⟩) :=
  ⟨C7_counter_invariant.2.1 ⟨3, 1⟩ (by decide),
   C7_counter_invariant.2.2.2.2 ⟨3, 10⟩ (by decide)⟩

/-- Claim C9: every `nb_line_modes[phase]` read performed while advancing
the reachable states is within the bounds of the 4-element array, because
the phase starts at FRONT_PORCH = 3 and is masked with 0x03 after every
increment; the checked advance never fails. -/
theorem C9_array_bounds : ∀ n : Nat,
    (V1.stateAt n).phase < V1.nb_line_modes.length ∧
    V1.incrementLineNumberChecked (V1.stateAt n) = some (V1.stateAt (n + 1)) := by
  intro n
  refine ⟨V1.phase_lt n, ?_⟩
  rw [V1.checked_agrees, V1.stateAt_succ]

/-- Claim C8: simulating 524 line events from the cold initial state
(Phase = FrontPorch, counter = 11) yields the phase sequence FrontPorch
times 11, SyncPulse times 2, BackPorch times 31, ActiveVideo times 480
in that concatenated order, and exactly 480 of the 524 events emit the
8-band color sequence. -/
theorem C8_frame_scenario :
    ((List.range 524).map V1.phaseAt
      = List.replicate 11 V1.FRONT_PORCH ++ List.replicate 2 V1.SYNCH_PULSE ++
        List.replicate 31 V1.BACK_PORCH ++ List.replicate 480 V1.ACTIVE_VIDEO) ∧
    ((List.range 524).filter (fun n => V1.emitsBandSequence (V1.stateAt n))).length
      = 480 := by
  constructor
  · have hc : ∀ n ∈ List.range 524, V1.phaseAt n = (V1.closedForm n).phase := by
      intro n hn
      unfold V1.phaseAt
      rw [V1.closedForm_correct n (List.mem_range.mp hn)]
    rw [List.map_congr_left hc]
    decide
  · have hc : ∀ n ∈ List.range 524,
        V1.emitsBandSequence (V1.stateAt n) = V1.emitsBandSequence (V1.closedForm n) := by
      intro n hn
      rw [V1.closedForm_correct n (List.mem_range.mp hn)]
    rw [List.filter_congr hc]
    decide

/-- Claim C3 (code bug): the delta computed by the v1.1 `waitTimer1` is
exact and non-negative for non-underflowing inputs, and the simulated
cycle cost is `delta - 1` for deltas with `(delta-13) % 4 ≠ 0` but
`delta - 4` when `(delta-13) % 4 = 0` (the `breq 3f` path skips the
three nops), so no single affine function of delta covers all four
residue classes, contrary to the claim and to the routine's own
cycle-count comments. -/
theorem C3_wait_cost :
    (∀ tick, tick < 256 → ∀ c, c < 256 → c ≤ tick → V1.waitDelta tick c = tick - c) ∧
    (∀ tick c : Nat, V1.waitTimer1Cycles tick c = V1.cyclesOfDelta (V1.waitDelta tick c)) ∧
    (∀ d, d < 256 → 13 ≤ d → (d - 13) % 4 ≠ 0 → V1.cyclesOfDelta d = d - 1) ∧
    (∀ d, d < 256 → 13 ≤ d → (d - 13) % 4 = 0 → V1.cyclesOfDelta d = d - 4) ∧
    ¬ ∃ a b : Int, ∀ d : Nat, d < 256 → 13 ≤ d →
      (V1.cyclesOfDelta d : Int) = a * d + b := by
  refine ⟨?_, fun tick c => rfl, by decide, by decide, ?_⟩
  · intro tick h1 c h2 h3
    simp only [V1.waitDelta]
    omega
  · rintro ⟨a, b, h⟩
    have h13 := h 13 (by norm_num) (by norm_num)
    have h14 := h 14 (by norm_num) (by norm_num)
    have h18 := h 18 (by norm_num) (by norm_num)
    rw [show V1.cyclesOfDelta 13 = 9 from by decide] at h13
    rw [show V1.cyclesOfDelta 14 = 13 from by decide] at h14
    rw [show V1.cyclesOfDelta 18 = 17 from by decide] at h18
    push_cast at h13 h14 h18
    omega

/-- Witness for C3: at target tick 91 with counter reading 78 the delta
is 13 = 91 - 78; the cost at delta 14 is 13 = 14 - 1 while the cost at
delta 13 is 9 = 13 - 4. -/
theorem C3_wait_cost_witness :
    V1.waitDelta 91 78 = 91 - 78 ∧ V1.cyclesOfDelta 14 = 14 - 1 ∧
    V1.cyclesOfDelta 13 = 13 - 4 :=
  ⟨C3_wait_cost.1 91 (by norm_num) 78 (by norm_num) (by norm_num),
   C3_wait_cost.2.2.1 14 (by norm_num) (by norm_num) (by norm_num),
   C3_wait_cost.2.2.2.1 13 (by norm_num) (by norm_num) (by norm_num)⟩

/-- Claim C2 (code bug): the nominal `int` targets passed to the v1.0
`waitTimer1` inside one ActiveVideo invocation are strictly increasing,
but the arguments actually received by the `byte tick` parameter wrap
modulo 256 (294, 344, 395, 446, 497 become 38, 88, 139, 190, 241), so
the sequence of byte arguments actually passed is not strictly
increasing. -/
theorem C2_wait_args_wrap :
    (V0.activeLineEvents.filterMap V0.Ev.waitArg)
      = [91, 141, 192, 243, 294, 344, 395, 446, 497] ∧
    (V0.activeLineEvents.filterMap V0.Ev.waitArg).map byteOf
      = [91, 141, 192, 243, 38, 88, 139, 190, 241] ∧
    ¬ List.Chain' (fun a b => a < b)
        ((V0.activeLineEvents.filterMap V0.Ev.waitArg).map byteOf) ∧
    List.Chain' (fun a b => a < b) (V0.activeLineEvents.filterMap V0.Ev.waitArg) := by
  have h1 : (V0.activeLineEvents.filterMap V0.Ev.waitArg)
      = [91, 141, 192, 243, 294, 344, 395, 446, 497] := by decide
  have h2 : (V0.activeLineEvents.filterMap V0.Ev.waitArg).map byteOf
      = [91, 141, 192, 243, 38, 88, 139, 190, 241] := by decide
  refine ⟨h1, h2, ?_, ?_⟩
  · rw [h2]
    simp [List.chain'_cons]
  · rw [h1]
    simp [List.chain'_cons]

/-- Claim C10: the v1.0 `waitTimer1` takes its target as a byte, so each
requested target is compared modulo 256; the band targets for k = 4..8
(nominally 294, 344, 395, 446, 497) all exceed 255, are effectively
compared as `t - 256`, and fall below the effective target of band 3
(243), so a reachable counter reading (e.g. 243) makes the do-while
condition false on entry and the call returns immediately. -/
theorem C10_byte_truncation :
    (∀ k, k ≤ 8 → (V0.activeLineEvents.filterMap V0.Ev.waitArg).get? k
      = some (V0.bandWaitArg k)) ∧
    (∀ k, 4 ≤ k → k ≤ 8 → 255 < V0.bandWaitArg k ∧
      byteOf (V0.bandWaitArg k) = V0.bandWaitArg k - 256 ∧
      byteOf (V0.bandWaitArg k) < byteOf (V0.bandWaitArg 3)) ∧
    (∃ c, V0.ReachableTCNT1L c ∧ ∀ k, 4 ≤ k → k ≤ 8 →
      V0.waitKeepsLooping c (byteOf (V0.bandWaitArg k)) = false) := by
  refine ⟨by decide, by decide, 243, ⟨243, by norm_num [V0.V_FULL_LINE_NB_TICKS,
    V0.V_SYNCH_PULSE_TICKS, V0.V_BACK_PORCH_TICKS, V0.V_ACTIVE_VIDEO_TICKS,
    V0.V_FRONT_PORCH_TICKS], by norm_num [byteOf]⟩, by decide⟩

/-- Witness for C10: band 4's nominal target 294 exceeds 255, is
truncated to 38 = 294 - 256, and 38 is below band 3's effective target
243. -/
theorem C10_byte_truncation_witness :
    255 < V0.bandWaitArg 4 ∧
    byteOf (V0.bandWaitArg 4) = V0.bandWaitArg 4 - 256 ∧
    byteOf (V0.bandWaitArg 4) < byteOf (V0.bandWaitArg 3) :=
  C10_byte_truncation.2.1 4 (by norm_num) (by norm_num)

/-- Counterexample for C4: in the v1.1 handler's ActiveVideo invocation
only a single `waitTimer1` call occurs (target 61+30, the back-porch
end), so the seven later color transitions are not placed by the Waiter
at the offsets back-porch-end + k*activeWidth/8; the k = 1 offset never
appears as a wait target. -/
theorem C4_counterexample :
    (V1.isrEvents ⟨V1.ACTIVE_VIDEO, 480⟩).filterMap V1.Ev.waitArg
      = [V1.H_SYNCH_PULSE_TICKS + V1.H_BACK_PORCH_TICKS] ∧
    ((V1.isrEvents ⟨V1.ACTIVE_VIDEO, 480⟩).filterMap V1.Ev.waitArg).length ≠ 8 ∧
    (V1.H_SYNCH_PULSE_TICKS + V1.H_BACK_PORCH_TICKS + V1.H_ACTIVE_VIDEO_TICKS / 8)
      ∉ (V1.isrEvents ⟨V1.ACTIVE_VIDEO, 480⟩).filterMap V1.Ev.waitArg := by
  refine ⟨by decide, by decide, by decide⟩

/-- Claim C4 (amended): both handler variants emit exactly 8 color-band
writes covering black, red, green, blue, cyan, yellow, magenta and white
and afterwards reset the color channel bits to off.  In the v1.0
(poll-loop) variant each band write k = 0..7 immediately follows a
Waiter call with nominal target (syncTicks+backPorchTicks) +
(activeTicks*k)/8; in the v1.1 variant only the first write follows a
Waiter call (at the back-porch end) and the others follow fixed 3
microsecond delays. -/
theorem C4_bands :
    (∀ ln : Int, V0.isrEvents ⟨V0.ACTIVE_VIDEO, ln⟩ = V0.activeLineEvents) ∧
    V0.activeLineEvents.filterMap V0.Ev.rgbArg
      = [V0.RED, V0.GREEN, V0.BLUE, V0.CYAN, V0.YELLOW, V0.MAGENTA, V0.BLACK, V0.WHITE,
         BV V0.VSYNCH_PIN ||| BV V0.HSYNCH_PIN] ∧
    [V0.RED, V0.GREEN, V0.BLUE, V0.CYAN, V0.YELLOW, V0.MAGENTA, V0.BLACK, V0.WHITE].Perm
      [V0.BLACK, V0.RED, V0.GREEN, V0.BLUE, V0.CYAN, V0.YELLOW, V0.MAGENTA, V0.WHITE] ∧
    (∀ k, k < 8 → V0.activeLineEvents.get? (2 * k) = some (.waitT (V0.bandWaitArg k)) ∧
      V0.activeLineEvents.get? (2 * k + 1) = some (.portD (V0.bandColor k))) ∧
    (BV V0.VSYNCH_PIN ||| BV V0.HSYNCH_PIN) &&& (V0.RED ||| V0.GREEN ||| V0.BLUE) = 0 ∧
    (∀ ll : Int, V1.isrEvents ⟨V1.ACTIVE_VIDEO, ll⟩ = V1.activeLineEvents) ∧
    V1.activeLineEvents.filterMap V1.Ev.rgbArg = V1.bandMasks ++ [0] ∧
    V1.bandMasks.Perm [V1.BLACK_MASK, V1.RED_MASK, V1.GREEN_MASK, V1.BLUE_MASK,
      V1.CYAN_MASK, V1.YELLOW_MASK, V1.MAGENTA_MASK, V1.WHITE_MASK] ∧
    V1.activeLineEvents.take 2
      = [.waitT (V1.H_SYNCH_PULSE_TICKS + V1.H_BACK_PORCH_TICKS), .portD V1.RED_MASK] ∧
    (0 : Nat) &&& (V1.RED_MASK ||| V1.GREEN_MASK ||| V1.BLUE_MASK) = 0 := by
  refine ⟨fun ln => rfl, by decide, by decide, by decide, by decide,
    fun ll => rfl, by decide, by decide, by decide, by decide⟩

/-- Witness for C4: in the v1.0 trace the band-0 write is the RED write
immediately after the Waiter call targeting the back-porch end. -/
theorem C4_bands_witness :
    V0.isrEvents ⟨V0.ACTIVE_VIDEO, 5⟩ = V0.activeLineEvents ∧
    V0.activeLineEvents.get? 0 = some (.waitT (V0.bandWaitArg 0)) ∧
    V0.activeLineEvents.get? 1 = some (.portD (V0.bandColor 0)) :=
  ⟨C4_bands.1 5, (C4_bands.2.2.2.1 0 (by norm_num)).1, (C4_bands.2.2.2.1 0 (by norm_num)).2⟩

/-- Claim C5: the sync output line is mutated exactly once per designated
boundary line (last line of FrontPorch, last line of SyncPulse),
immediately after the Waiter call targeting tick offset syncTicks +
backPorchTicks, that mutation inverts the sync line's logic level, and it
is the only mutation of the sync output the handler ever performs in any
phase (for the v1.0 variant the level inversion holds on every state
satisfying the reachable-state invariant `SyncInv`, which holds initially
and is preserved by every interrupt). -/
theorem C5_sync_toggle :
    (∀ s : V1.State, (s.phase = V1.FRONT_PORCH ∨ s.phase = V1.SYNCH_PULSE) →
      s.lines_left = 1 →
      V1.isrEvents s = [.waitT (V1.H_SYNCH_PULSE_TICKS + V1.H_BACK_PORCH_TICKS),
        .portBXor (BV V1.VSYNCH_PIN)]) ∧
    (∀ s : V1.State, (V1.isrEvents s).filter V1.Ev.isSyncWrite =
      if (s.phase = V1.FRONT_PORCH ∨ s.phase = V1.SYNCH_PULSE) ∧ s.lines_left = 1 then
        [V1.Ev.portBXor (BV V1.VSYNCH_PIN)]
      else []) ∧
    (∀ b : Nat, (V1.applyEv b (.portBXor (BV V1.VSYNCH_PIN))).testBit V1.VSYNCH_PIN
      = ! b.testBit V1.VSYNCH_PIN) ∧
    (∀ s : V0.State, s.phase = V0.FRONT_PORCH →
      s.line_number = V0.H_FRONT_PORCH_LINES - 1 →
      V0.isrEvents s = [.waitT (V0.V_SYNCH_PULSE_TICKS + V0.V_BACK_PORCH_TICKS),
        .portBClear V0.HSYNCH_PIN]) ∧
    (∀ s : V0.State, s.phase = V0.SYNCH_PULSE →
      s.line_number = V0.H_SYNCH_PULSE_LINES - 1 →
      V0.isrEvents s = [.waitT (V0.V_SYNCH_PULSE_TICKS + V0.V_BACK_PORCH_TICKS),
        .portBSet V0.HSYNCH_PIN]) ∧
    (∀ s : V0.State, (V0.isrEvents s).filter V0.Ev.isSyncWrite =
      if s.phase = V0.FRONT_PORCH ∧ s.line_number = V0.H_FRONT_PORCH_LINES - 1 then
        [V0.Ev.portBClear V0.HSYNCH_PIN]
      else if s.phase = V0.SYNCH_PULSE ∧ s.line_number = V0.H_SYNCH_PULSE_LINES - 1 then
        [V0.Ev.portBSet V0.HSYNCH_PIN]
      else []) ∧
    V0.SyncInv V0.initSys ∧
    (∀ sys, V0.SyncInv sys → V0.SyncInv (V0.stepISR sys)) ∧
    (∀ sys, V0.SyncInv sys → V0.syncBoundary sys.st →
      (V0.stepISR sys).portB.testBit V0.HSYNCH_PIN
        = ! sys.portB.testBit V0.HSYNCH_PIN) ∧
    (∀ sys, V0.SyncInv sys → ¬ V0.syncBoundary sys.st →
      (V0.stepISR sys).portB = sys.portB) :=
  ⟨V1.boundary_trace, V1.sync_filter, V1.xor_toggles, V0.fp_boundary_trace,
   V0.sp_boundary_trace, V0.sync_filter0, by decide,
   fun sys h => (V0.step_full sys h).1,
   fun sys h hb => (V0.step_full sys h).2.1 hb,
   fun sys h hnb => (V0.step_full sys h).2.2 hnb⟩

/-- Witness for C5: the v1.1 trace on the FrontPorch boundary line is the
wait followed by the XOR toggle, and stepping the v1.0 system from the
FrontPorch boundary inverts the sync bit of the initial port value 3. -/
theorem C5_sync_toggle_witness :
    V1.isrEvents ⟨3, 1⟩ = [.waitT (V1.H_SYNCH_PULSE_TICKS + V1.H_BACK_PORCH_TICKS),
      .portBXor (BV V1.VSYNCH_PIN)] ∧
    (V0.stepISR ⟨⟨3, 10⟩, 3⟩).portB.testBit V0.HSYNCH_PIN
      = ! (3 : Nat).testBit V0.HSYNCH_PIN :=
  ⟨C5_sync_toggle.1 ⟨3, 1⟩ (Or.inl rfl) rfl,
   C5_sync_toggle.2.2.2.2.2.2.2.2.1 ⟨⟨3, 10⟩, 3⟩ (by decide) (by decide)⟩
